import Mathlib

/-!
Shallow embedding of the coingecko-mcp server's tool handlers.

The repository registers three MCP tools:
* `get_coin_info` (in the unnamed source file): a three-stage fallback
  resolution — fetch-by-id, search, re-fetch by the first search hit —
  with an outer catch converting every thrown error into an
  error-flagged payload.
* `search_coingecko_id` and `get_coin_data_by_coingecko_id`
  (in `src/tools.ts`).

Upstream HTTP interactions are modelled by an `Env` oracle mapping the
coin id passed to `/coins/{id}` and the query passed to `/search` to a
response (status code plus a parsed-or-unparseable body). JavaScript
truthiness of optional string fields is modelled by `truthy`. The
resolver is instrumented with a trace of outbound calls so that claims
of the form "never issues a search call" are statable.
-/

namespace Coingecko

/-- JavaScript truthiness of an optionally-present string field:
`undefined` and the empty string are falsy, everything else truthy. -/
def truthy : Option String → Bool
  | some s => s != ""
  | none => false

/-- A parsed coin-detail body (`CoinGeckoCoinDetail` / `CoinGeckoApiError`):
each field optional because the raw JSON may omit any of them.
`platforms = none` models JSON `null` or an absent field. -/
structure CoinBody where
  id : Option String
  symbol : Option String
  name : Option String
  web_slug : Option String
  platforms : Option (List (String × Option String))
  error : Option String
deriving Repr, DecidableEq

/-- Outcome of `await response.json()`: a parsed value, or a parse
exception carrying the runtime's message. -/
inductive Parsed (α : Type) where
  | ok (v : α)
  | failed (msg : String)
deriving Repr, DecidableEq

/-- A response from the `/coins/{id}` endpoint. -/
structure CoinResp where
  status : Nat
  body : Parsed CoinBody
deriving Repr, DecidableEq

/-- One candidate in the search response's `coins` list. -/
structure SearchCoin where
  id : Option String
  name : Option String
  api_symbol : Option String
  symbol : Option String
deriving Repr, DecidableEq

/-- A parsed `/search` response body. Besides the `coins` list it keeps
the top-level fields that `search_coingecko_id` (mis)reads off the raw
search response as if it were a coin-detail record. -/
structure SearchBody where
  coins : Option (List SearchCoin)
  id : Option String
  symbol : Option String
  name : Option String
  web_slug : Option String
  platforms : Option (List (String × Option String))
deriving Repr, DecidableEq

/-- A response from the `/search` endpoint; `bodyText` is what
`response.text()` yields when the handler reads the raw body. -/
structure SearchResp where
  status : Nat
  bodyText : String
  body : Parsed SearchBody
deriving Repr, DecidableEq

/-- The upstream API as an oracle: what each endpoint returns for each
argument during one tool invocation. -/
structure Env where
  fetchCoin : String → CoinResp
  search : String → SearchResp

/-- `response.ok` of the fetch API: status in the range 200–299. -/
def is2xx (status : Nat) : Bool := 200 ≤ status && status < 300

/-- The record shape `get_coin_info` returns on success: exactly the
five projected fields, `platforms` already defaulted. -/
structure Projected where
  id : String
  symbol : Option String
  name : Option String
  web_slug : Option String
  platforms : List (String × Option String)
deriving Repr, DecidableEq

/-- Result of a `get_coin_info` call: a success payload, or an
error-flagged payload (`isError: true`) with its message. The handler's
whole body sits in a try/catch, so nothing else can escape. -/
inductive CallResult where
  | success (rec : Projected)
  | errorResult (msg : String)
deriving Repr, DecidableEq

/-- One outbound HTTP call made by the `get_coin_info` handler. -/
inductive Call where
  | fetchCoin (id : String)
  | search (query : String)
deriving Repr, DecidableEq

/-- Renders a string as a JSON string literal (no escaping modelled:
the claims never inspect escaped content). -/
def jsonStr (s : String) : String := "\"" ++ s ++ "\""

/-- Serialization of a present-or-absent string field, as
`JSON.stringify` does it: absent fields are dropped. -/
def jsonOptStrField (k : String) (v : Option String) : List String :=
  match v with
  | some s => [jsonStr k ++ ":" ++ jsonStr s]
  | none => []

/-- Serialization of a platforms mapping. -/
def jsonPlatforms (ps : List (String × Option String)) : String :=
  "\x7b" ++ String.intercalate ","
    (ps.map (fun p => jsonStr p.1 ++ ":" ++
      (match p.2 with | some v => jsonStr v | none => "null"))) ++ "\x7d"

/-- `JSON.stringify` of a coin-detail body, used inside error messages. -/
def stringifyCoinBody (b : CoinBody) : String :=
  "\x7b" ++ String.intercalate ","
    (jsonOptStrField "id" b.id ++ jsonOptStrField "symbol" b.symbol ++
     jsonOptStrField "name" b.name ++ jsonOptStrField "web_slug" b.web_slug ++
     (match b.platforms with
      | some ps => [jsonStr "platforms" ++ ":" ++ jsonPlatforms ps]
      | none => []) ++
     jsonOptStrField "error" b.error) ++ "\x7d"

/-- The soft error object the stage-1 parse guard synthesizes when the
body of the direct-by-id response fails to parse as JSON. -/
def synthParseErrorBody (status : Nat) : CoinBody :=
  { id := none, symbol := none, name := none, web_slug := none,
    platforms := none,
    error := some ("Failed to parse JSON response from ID endpoint. Status: "
      ++ toString status) }

/-- The soft error object the stage-3 parse guard synthesizes. -/
def synthParseErrorBodyAfterSearch (status : Nat) : CoinBody :=
  { id := none, symbol := none, name := none, web_slug := none,
    platforms := none,
    error := some ("Failed to parse JSON response from coin details endpoint (after search). Status: "
      ++ toString status) }

/-- `directIdData` after the stage-1 parse guard: the parsed body, or
the synthesized soft error object. -/
def stage1Body (r : CoinResp) : CoinBody :=
  match r.body with
  | Parsed.ok b => b
  | Parsed.failed _ => synthParseErrorBody r.status

/-- `idFromSearchData` after the stage-3 parse guard. -/
def stage3Body (r : CoinResp) : CoinBody :=
  match r.body with
  | Parsed.ok b => b
  | Parsed.failed _ => synthParseErrorBodyAfterSearch r.status

/-- The valid-CoinRecord check `potentialCoinData.id && !potentialErrorData.error`. -/
def isValidRecord (b : CoinBody) : Bool := truthy b.id && !(truthy b.error)

/-- `processCoinDataResponse`: throws (`Except.error`) when `id` is not
a string, otherwise returns the five-field projection with `platforms`
defaulted to the empty mapping. -/
def processCoinDataResponse (coinDetails : CoinBody) : Except String Projected :=
  match coinDetails.id with
  | none => Except.error
      ("Invalid coin data structure received from API (missing id): "
        ++ stringifyCoinBody coinDetails)
  | some i => Except.ok
      { id := i, symbol := coinDetails.symbol, name := coinDetails.name,
        web_slug := coinDetails.web_slug,
        platforms := coinDetails.platforms.getD [] }

/-- The message of the isError payload returned directly (not thrown)
when search yields no candidates. -/
def notFoundMsg (query : String) : String :=
  "Coin not found for query: '" ++ query ++ "' after attempting ID lookup and search."

/-- The message thrown when the first search candidate's id is falsy. -/
def extractIdErrorMsg : String :=
  "Could not extract ID from the first search result."

/-- The message thrown when the search endpoint responds non-2xx. -/
def searchApiErrorMsg (query : String) (r : SearchResp) : String :=
  "Search API error for query '" ++ query ++ "'. Status: "
    ++ toString r.status ++ ", Body: " ++ r.bodyText

/-- The message thrown when the stage-3 fetch responds non-2xx. -/
def stage3TransportMsg (query fid : String) (r : CoinResp) : String :=
  "Error fetching coin details for ID '" ++ fid ++ "' (found via search for '"
    ++ query ++ "'). Status: " ++ toString r.status ++ ", Body: "
    ++ stringifyCoinBody (stage3Body r)

/-- The message thrown when the stage-3 body is 2xx but not a valid
record: `error || 'Invalid data structure after search'`. -/
def stage3InvalidMsg (fid : String) (b : CoinBody) : String :=
  "Failed to retrieve valid data for coin ID '" ++ fid
    ++ "' (from search). API response: "
    ++ (if truthy b.error then b.error.getD "" else "Invalid data structure after search")

/-- The message thrown when the stage-1 fetch responds with a non-2xx
status other than 404. -/
def directErrorMsg (query : String) (r : CoinResp) : String :=
  "Error fetching directly by ID '" ++ query ++ "'. Status: "
    ++ toString r.status ++ ", Response: " ++ stringifyCoinBody (stage1Body r)

/-- Stage 3 of `get_coin_info`: re-fetch by the id found via search.
`Except.error` models a thrown exception (caught by the outer catch). -/
def stage3 (env : Env) (query fid : String) : Except String CallResult × List Call :=
  if is2xx (env.fetchCoin fid).status = false then
    (Except.error (stage3TransportMsg query fid (env.fetchCoin fid)),
     [Call.search query, Call.fetchCoin fid])
  else if isValidRecord (stage3Body (env.fetchCoin fid)) then
    ((processCoinDataResponse (stage3Body (env.fetchCoin fid))).map CallResult.success,
     [Call.search query, Call.fetchCoin fid])
  else
    (Except.error (stage3InvalidMsg fid (stage3Body (env.fetchCoin fid))),
     [Call.search query, Call.fetchCoin fid])

/-- Stage 2 of `get_coin_info`: the search fallback, flowing into
stage 3 when a candidate with a truthy id exists. -/
def searchAndResolve (env : Env) (query : String) : Except String CallResult × List Call :=
  if is2xx (env.search query).status = false then
    (Except.error (searchApiErrorMsg query (env.search query)), [Call.search query])
  else
    match (env.search query).body with
    | Parsed.failed m => (Except.error m, [Call.search query])
    | Parsed.ok searchData =>
      match searchData.coins with
      | none => (Except.ok (CallResult.errorResult (notFoundMsg query)), [Call.search query])
      | some [] => (Except.ok (CallResult.errorResult (notFoundMsg query)), [Call.search query])
      | some (c :: _) =>
        match c.id with
        | none => (Except.error extractIdErrorMsg, [Call.search query])
        | some fid =>
          if fid = "" then (Except.error extractIdErrorMsg, [Call.search query])
          else stage3 env query fid

/-- The body of the `get_coin_info` handler's try block, with the trace
of outbound calls. `Except.error` is a thrown exception. -/
def resolveSteps (env : Env) (query : String) : Except String CallResult × List Call :=
  if is2xx (env.fetchCoin query).status && isValidRecord (stage1Body (env.fetchCoin query)) then
    ((processCoinDataResponse (stage1Body (env.fetchCoin query))).map CallResult.success,
     [Call.fetchCoin query])
  else if is2xx (env.fetchCoin query).status || (env.fetchCoin query).status == 404 then
    ((searchAndResolve env query).1, Call.fetchCoin query :: (searchAndResolve env query).2)
  else
    (Except.error (directErrorMsg query (env.fetchCoin query)), [Call.fetchCoin query])

/-- The outer catch: a thrown message becomes an error-flagged payload
wrapping the query and the causal detail. -/
def finishResult (query : String) : Except String CallResult → CallResult
  | Except.ok res => res
  | Except.error m => CallResult.errorResult
      ("Error processing coin query '" ++ query ++ "': " ++ m)

/-- The `get_coin_info` handler with its trace of outbound calls. -/
def getCoinInfoT (env : Env) (query : String) : CallResult × List Call :=
  (finishResult query (resolveSteps env query).1, (resolveSteps env query).2)

/-- The `get_coin_info` handler's observable result. -/
def getCoinInfo (env : Env) (query : String) : CallResult :=
  (getCoinInfoT env query).1

/-- Result of a `tools.ts` handler: a success payload, an error-flagged
payload, or an exception that escapes the handler uncaught. -/
inductive ToolOut (α : Type) where
  | success (payload : α)
  | errorResult (msg : String)
  | unhandled (msg : String)
deriving Repr, DecidableEq

/-- The object `search_coingecko_id` builds from the top level of the
raw search response. -/
structure TopLevelProjection where
  id : Option String
  symbol : Option String
  name : Option String
  web_slug : Option String
  platforms : Option (List (String × Option String))
deriving Repr, DecidableEq

/-- The `search_coingecko_id` handler (`src/tools.ts`). The non-2xx
throw and the `response.json()` call sit outside its try blocks, so both
escape the handler as `unhandled`. The fields are read off the raw
search response's top level. -/
def searchCoingeckoId (env : Env) (query : String) : ToolOut TopLevelProjection :=
  if is2xx (env.search query).status = false then
    ToolOut.unhandled ("HTTP error! status: " ++ toString (env.search query).status)
  else
    match (env.search query).body with
    | Parsed.failed m => ToolOut.unhandled m
    | Parsed.ok data =>
      ToolOut.success
        { id := data.id, symbol := data.symbol, name := data.name,
          web_slug := data.web_slug, platforms := data.platforms }

/-- The `get_coin_data_by_coingecko_id` handler (`src/tools.ts`): the
whole body is inside try/catch; a 2xx parseable body is returned
verbatim with no inspection of its contents. -/
def getCoinDataByCoingeckoId (env : Env) (id : String) : ToolOut CoinBody :=
  if is2xx (env.fetchCoin id).status = false then
    ToolOut.errorResult ("Error fetching coin data: HTTP error! status: "
      ++ toString (env.fetchCoin id).status)
  else
    match (env.fetchCoin id).body with
    | Parsed.failed m => ToolOut.errorResult ("Error fetching coin data: " ++ m)
    | Parsed.ok data => ToolOut.success data

/-- Stage 1 decides to fall through to the search fallback: a 2xx
response whose body is not a valid record (a `coin not found` body or
any other non-record shape), or an HTTP 404. -/
def stage1FallsThrough (r : CoinResp) : Prop :=
  (is2xx r.status = true ∧ isValidRecord (stage1Body r) = false) ∨ r.status = 404

/-! Concrete upstream data and environments used to evaluate the
theorems at explicit inputs. -/

/-- A valid coin-detail body as the upstream returns it for `usd-coin`. -/
def bodyUsdCoin : CoinBody :=
  { id := some "usd-coin", symbol := some "usdc", name := some "USD Coin",
    web_slug := some "usd-coin", platforms := some [("ethereum", some "0xA0b8")],
    error := none }

/-- The 2xx `coin not found` soft-error body. -/
def bodyNotFound : CoinBody :=
  { id := none, symbol := none, name := none, web_slug := none,
    platforms := none, error := some "coin not found" }

/-- A 2xx body whose id field is present but the empty string. -/
def bodyEmptyId : CoinBody :=
  { id := some "", symbol := some "x", name := some "x", web_slug := some "x",
    platforms := none, error := none }

/-- A search candidate pointing at `usd-coin`. -/
def searchHitUsdCoin : SearchCoin :=
  { id := some "usd-coin", name := some "USD Coin", api_symbol := some "usdc",
    symbol := some "usdc" }

/-- A second search candidate, never consulted by the resolver. -/
def searchHitTether : SearchCoin :=
  { id := some "tether", name := some "Tether", api_symbol := some "usdt",
    symbol := some "usdt" }

/-- A search candidate whose id is the empty string. -/
def searchHitEmptyId : SearchCoin :=
  { id := some "", name := some "ghost", api_symbol := none, symbol := none }

/-- A search body with two candidates and, as upstream really answers,
no coin-detail fields at its top level. -/
def searchBodyUSDC : SearchBody :=
  { coins := some [searchHitUsdCoin, searchHitTether],
    id := none, symbol := none, name := none, web_slug := none, platforms := none }

/-- A search body with an empty candidate list. -/
def searchBodyEmpty : SearchBody :=
  { coins := some [],
    id := none, symbol := none, name := none, web_slug := none, platforms := none }

/-- A search body whose first candidate has the empty-string id. -/
def searchBodyEmptyId : SearchBody :=
  { coins := some [searchHitEmptyId],
    id := none, symbol := none, name := none, web_slug := none, platforms := none }

/-- Upstream where the direct lookup 404s and search resolves `usd-coin`. -/
def envResolveViaSearch : Env :=
  { fetchCoin := fun i =>
      if i = "usd-coin" then ⟨200, Parsed.ok bodyUsdCoin⟩
      else ⟨404, Parsed.ok bodyNotFound⟩,
    search := fun _ => ⟨200, "", Parsed.ok searchBodyUSDC⟩ }

/-- Upstream where the direct lookup succeeds at once; the search
endpoint is broken, which no stage may notice. -/
def envDirectHit : Env :=
  { fetchCoin := fun _ => ⟨200, Parsed.ok bodyUsdCoin⟩,
    search := fun _ => ⟨500, "broken", Parsed.failed "broken"⟩ }

/-- Upstream whose direct lookup fails with HTTP 500. -/
def envServerError : Env :=
  { fetchCoin := fun _ => ⟨500, Parsed.failed "Internal Server Error"⟩,
    search := fun _ => ⟨200, "", Parsed.ok searchBodyUSDC⟩ }

/-- Upstream where the direct lookup 404s and search matches nothing. -/
def envEmptySearch : Env :=
  { fetchCoin := fun _ => ⟨404, Parsed.ok bodyNotFound⟩,
    search := fun _ => ⟨200, "", Parsed.ok searchBodyEmpty⟩ }

/-- Upstream whose direct lookup answers 2xx with an unparseable body. -/
def envUnparseable : Env :=
  { fetchCoin := fun _ => ⟨200, Parsed.failed "Unexpected token < in JSON"⟩,
    search := fun _ => ⟨200, "", Parsed.ok searchBodyEmpty⟩ }

/-- Upstream whose search responds HTTP 500. -/
def envSearchDown : Env :=
  { fetchCoin := fun _ => ⟨404, Parsed.ok bodyNotFound⟩,
    search := fun _ => ⟨500, "Internal Server Error", Parsed.failed "nope"⟩ }

/-- Upstream where the direct lookup 404s and the first search
candidate carries an empty-string id. -/
def envEmptyIdCandidate : Env :=
  { fetchCoin := fun _ => ⟨404, Parsed.ok bodyNotFound⟩,
    search := fun _ => ⟨200, "", Parsed.ok searchBodyEmptyId⟩ }

/-- Upstream whose direct lookup answers 2xx with an empty-string id. -/
def envEmptyIdBody : Env :=
  { fetchCoin := fun _ => ⟨200, Parsed.ok bodyEmptyId⟩,
    search := fun _ => ⟨200, "", Parsed.ok searchBodyEmpty⟩ }

/-- Upstream whose coin-detail endpoint answers 2xx with the
`coin not found` soft-error body. -/
def envSoftError : Env :=
  { fetchCoin := fun _ => ⟨200, Parsed.ok bodyNotFound⟩,
    search := fun _ => ⟨200, "", Parsed.ok searchBodyEmpty⟩ }

/-- The projection `get_coin_info` returns for `bodyUsdCoin`. -/
def projUsdCoin : Projected :=
  { id := "usd-coin", symbol := some "usdc", name := some "USD Coin",
    web_slug := some "usd-coin", platforms := [("ethereum", some "0xA0b8")] }

/-! Helper lemmas shared by the claim theorems. -/

theorem resolveSteps_fallsThrough (env : Env) (query : String)
    (h : stage1FallsThrough (env.fetchCoin query)) :
    resolveSteps env query =
      ((searchAndResolve env query).1,
        Call.fetchCoin query :: (searchAndResolve env query).2) := by
  unfold resolveSteps
  rcases h with ⟨h2, hv⟩ | h4
  · rw [h2, hv]; simp
  · rw [h4]; simp [is2xx]

theorem searchAndResolve_trace (env : Env) (query : String) :
    ∃ rest, (searchAndResolve env query).2 = Call.search query :: rest := by
  unfold searchAndResolve stage3
  repeat' split
  all_goals exact ⟨_, rfl⟩

theorem processCoinDataResponse_ok_platforms (b : CoinBody) (p : Projected)
    (h : processCoinDataResponse b = Except.ok p) :
    p.platforms = b.platforms.getD [] := by
  unfold processCoinDataResponse at h
  split at h
  · exact absurd h (by simp)
  · cases h; rfl

theorem map_success_ok (d : CoinBody) (res : CallResult)
    (h : (processCoinDataResponse d).map CallResult.success = Except.ok res) :
    ∃ p, res = CallResult.success p ∧ processCoinDataResponse d = Except.ok p := by
  rcases hp : processCoinDataResponse d with m | p <;> rw [hp] at h <;>
    simp [Except.map] at h
  exact ⟨p, h.symm, rfl⟩

theorem resolveSteps_ok_shape (env : Env) (query : String) (res : CallResult)
    (h : (resolveSteps env query).1 = Except.ok res) :
    (∃ p b, res = CallResult.success p ∧ processCoinDataResponse b = Except.ok p) ∨
    res = CallResult.errorResult (notFoundMsg query) := by
  unfold resolveSteps searchAndResolve stage3 at h
  repeat' split at h
  all_goals simp_all [Except.map]
  · obtain ⟨p, hres, hp⟩ := map_success_ok _ _ h
    exact Or.inl ⟨p, hres, _, hp⟩
  · obtain ⟨p, hres, hp⟩ := map_success_ok _ _ h
    exact Or.inl ⟨p, hres, _, hp⟩

/-- Claim C1: when the stage-1 fetch-by-id yields HTTP 404 or a 2xx
non-record body, and search returns at least one candidate whose id is
truthy and whose re-fetch succeeds with a valid record, `get_coin_info`
returns the projected record of the first candidate's detail fetch,
regardless of how many further candidates the search returned. -/
theorem search_fallback_returns_first_candidate_detail
    (env : Env) (query : String)
    (sst : Nat) (txt : String) (sb : SearchBody) (c : SearchCoin)
    (rest : List SearchCoin) (fid : String) (st3 : Nat) (b3 : CoinBody) (i3 : String)
    (hft : stage1FallsThrough (env.fetchCoin query))
    (hs : env.search query = ⟨sst, txt, Parsed.ok sb⟩)
    (hsst : is2xx sst = true)
    (hcoins : sb.coins = some (c :: rest))
    (hcid : c.id = some fid) (hfid : fid ≠ "")
    (h3 : env.fetchCoin fid = ⟨st3, Parsed.ok b3⟩)
    (hst3 : is2xx st3 = true)
    (hid3 : b3.id = some i3) (hi3 : i3 ≠ "")
    (herr3 : truthy b3.error = false) :
    getCoinInfoT env query =
      (CallResult.success
        { id := i3, symbol := b3.symbol, name := b3.name, web_slug := b3.web_slug,
          platforms := b3.platforms.getD [] },
       [Call.fetchCoin query, Call.search query, Call.fetchCoin fid]) := by
  have hti : truthy (some i3) = true := by simp [truthy, hi3]
  unfold getCoinInfoT
  rw [resolveSteps_fallsThrough env query hft]
  unfold searchAndResolve stage3
  rw [hs]
  simp [hsst, hcoins, hcid, hfid, h3, stage3Body, isValidRecord, hid3, hti, herr3,
    hst3, processCoinDataResponse, finishResult, Except.map]

/-- Claim C1 witness: a 404 on `USDC`, a two-candidate search, and a
valid re-fetch of the first candidate `usd-coin`. -/
theorem search_fallback_returns_first_candidate_detail_witness :
    getCoinInfoT envResolveViaSearch "USDC" =
      (CallResult.success projUsdCoin,
       [Call.fetchCoin "USDC", Call.search "USDC", Call.fetchCoin "usd-coin"]) :=
  search_fallback_returns_first_candidate_detail envResolveViaSearch "USDC"
    200 "" searchBodyUSDC searchHitUsdCoin [searchHitTether] "usd-coin" 200 bodyUsdCoin
    "usd-coin" (Or.inr rfl) rfl rfl rfl rfl (by decide) rfl rfl rfl (by decide) rfl

/-- Claim C2: when the first fetch-by-id call is 2xx with a valid record
(truthy id, falsy error field), `get_coin_info` returns exactly the
projected fields of that record, and the call trace contains no search
call. -/
theorem direct_success_projects_without_search
    (env : Env) (query : String) (st : Nat) (b : CoinBody) (i : String)
    (hr : env.fetchCoin query = ⟨st, Parsed.ok b⟩)
    (hst : is2xx st = true)
    (hid : b.id = some i) (hi : i ≠ "")
    (herr : truthy b.error = false) :
    getCoinInfoT env query =
      (CallResult.success
        { id := i, symbol := b.symbol, name := b.name, web_slug := b.web_slug,
          platforms := b.platforms.getD [] },
       [Call.fetchCoin query]) := by
  have htid : truthy (some i) = true := by simp [truthy, hi]
  unfold getCoinInfoT resolveSteps
  rw [hr]
  simp [stage1Body, isValidRecord, htid, herr, hst, hid,
    processCoinDataResponse, finishResult, Except.map]

/-- Claim C2 witness: a direct hit on `usd-coin`; the single-element
trace shows the (broken) search endpoint was never consulted. -/
theorem direct_success_projects_without_search_witness :
    getCoinInfoT envDirectHit "usd-coin" =
      (CallResult.success projUsdCoin, [Call.fetchCoin "usd-coin"]) :=
  direct_success_projects_without_search envDirectHit "usd-coin" 200 bodyUsdCoin
    "usd-coin" rfl rfl rfl (by decide) rfl

/-- Claim C3: a stage-1 response with a non-2xx status other than 404
makes `get_coin_info` terminate with an error-flagged transport failure,
and the call trace contains no search call. -/
theorem non404_failure_is_terminal_no_search
    (env : Env) (query : String)
    (h2 : is2xx (env.fetchCoin query).status = false)
    (h4 : (env.fetchCoin query).status ≠ 404) :
    getCoinInfoT env query =
      (CallResult.errorResult
        ("Error processing coin query '" ++ query ++ "': "
          ++ directErrorMsg query (env.fetchCoin query)),
       [Call.fetchCoin query]) := by
  unfold getCoinInfoT resolveSteps
  simp [h2, h4, finishResult]

/-- Claim C3 witness: an HTTP 500 on the direct lookup is terminal. -/
theorem non404_failure_is_terminal_no_search_witness :
    getCoinInfoT envServerError "bitcoin" =
      (CallResult.errorResult
        ("Error processing coin query '" ++ "bitcoin" ++ "': "
          ++ directErrorMsg "bitcoin" (envServerError.fetchCoin "bitcoin")),
       [Call.fetchCoin "bitcoin"]) :=
  non404_failure_is_terminal_no_search envServerError "bitcoin" (by decide) (by decide)

/-- Claim C4: a 2xx search response whose coins list is empty or absent
makes `get_coin_info` fail with the not-found error payload, the failure
message contains the original query verbatim, and the trace stops at the
search call (no stage-3 fetch). -/
theorem empty_search_not_found_names_query
    (env : Env) (query : String) (sst : Nat) (txt : String) (sb : SearchBody)
    (hft : stage1FallsThrough (env.fetchCoin query))
    (hs : env.search query = ⟨sst, txt, Parsed.ok sb⟩)
    (hsst : is2xx sst = true)
    (hcoins : sb.coins = none ∨ sb.coins = some []) :
    getCoinInfoT env query =
      (CallResult.errorResult (notFoundMsg query),
       [Call.fetchCoin query, Call.search query]) ∧
    (∃ pre post, notFoundMsg query = pre ++ query ++ post) := by
  refine ⟨?_, "Coin not found for query: '", "' after attempting ID lookup and search.", rfl⟩
  unfold getCoinInfoT
  rw [resolveSteps_fallsThrough env query hft]
  unfold searchAndResolve
  rw [hs]
  rcases hcoins with hc | hc <;>
    simp [hsst, hc, finishResult]

/-- Claim C4 witness: nothing matches `doesnotexist`; the two-call trace
shows no stage-3 fetch was issued. -/
theorem empty_search_not_found_names_query_witness :
    (getCoinInfoT envEmptySearch "doesnotexist" =
      (CallResult.errorResult (notFoundMsg "doesnotexist"),
       [Call.fetchCoin "doesnotexist", Call.search "doesnotexist"]) ∧
    (∃ pre post, notFoundMsg "doesnotexist" = pre ++ "doesnotexist" ++ post)) :=
  empty_search_not_found_names_query envEmptySearch "doesnotexist" 200 "" searchBodyEmpty
    (Or.inr rfl) rfl rfl (Or.inr rfl)

/-- Claim C5 counterexample: not every registered tool converts every
terminal failure into a structured failure response. In
`search_coingecko_id` the non-2xx throw sits outside the try/catch, so
an upstream HTTP 500 on the search endpoint escapes the handler as a
raw unhandled exception instead of an error-flagged payload. -/
theorem raw_throw_escapes_search_tool :
    searchCoingeckoId envSearchDown "BTC" =
      ToolOut.unhandled ("HTTP error! status: " ++ toString 500) := rfl

/-- Claim C5 as amended: for the `get_coin_info` tool every outcome is
either a success or an error-flagged payload whose message embeds the
original query verbatim; no raw exception crosses that tool's boundary
(its result type has no unhandled outcome because the whole handler
body sits in try/catch). -/
theorem getCoinInfo_failures_structured_and_name_query (env : Env) (query : String) :
    (∃ p, getCoinInfo env query = CallResult.success p) ∨
    (∃ pre post, getCoinInfo env query =
      CallResult.errorResult (pre ++ query ++ post)) := by
  unfold getCoinInfo getCoinInfoT finishResult
  rcases hres : (resolveSteps env query).1 with m | res
  · refine Or.inr ⟨"Error processing coin query '", "': " ++ m, ?_⟩
    simp [String.append_assoc]
  · rcases resolveSteps_ok_shape env query res hres with ⟨p, _, hp, _⟩ | hnf
    · subst hp
      exact Or.inl ⟨p, rfl⟩
    · subst hnf
      exact Or.inr ⟨"Coin not found for query: '",
        "' after attempting ID lookup and search.", rfl⟩

/-- Claim C6: whichever stage produced the record, a successful
`get_coin_info` resolution is the image of some upstream body under the
single five-field projection `processCoinDataResponse`, with `platforms`
defaulting to the empty mapping when the source value is null/absent. -/
theorem success_output_is_five_field_projection (env : Env) (query : String) (p : Projected)
    (h : getCoinInfo env query = CallResult.success p) :
    ∃ b : CoinBody, processCoinDataResponse b = Except.ok p ∧
      p.platforms = b.platforms.getD [] := by
  unfold getCoinInfo getCoinInfoT finishResult at h
  split at h
  · rename_i res heq
    subst h
    rcases resolveSteps_ok_shape env query _ heq with ⟨p', b, hp', hb⟩ | hnf
    · cases hp'
      exact ⟨b, hb, processCoinDataResponse_ok_platforms b _ hb⟩
    · exact absurd hnf (by simp)
  · exact absurd h (by simp)

/-- Claim C6 witness: the successful resolution of `usd-coin` is the
projection of an upstream body, platforms defaulted from that body. -/
theorem success_output_is_five_field_projection_witness :
    ∃ b : CoinBody, processCoinDataResponse b = Except.ok projUsdCoin ∧
      projUsdCoin.platforms = b.platforms.getD [] :=
  success_output_is_five_field_projection envDirectHit "usd-coin" projUsdCoin rfl

/-- Claim C7: when the stage-1 body fails to parse as JSON the handler
synthesizes a soft error object carrying the HTTP status inside a
parse-failure message instead of propagating the parse exception, and a
2xx response with an unparseable body goes on to issue the search call
rather than terminating. -/
theorem stage1_parse_guard_synthesizes_soft_error :
    (∀ (st : Nat) (m : String),
      stage1Body ⟨st, Parsed.failed m⟩ = synthParseErrorBody st ∧
      (synthParseErrorBody st).error =
        some ("Failed to parse JSON response from ID endpoint. Status: " ++ toString st)) ∧
    (∀ (env : Env) (query : String) (st : Nat) (m : String),
      env.fetchCoin query = ⟨st, Parsed.failed m⟩ → is2xx st = true →
      Call.search query ∈ (getCoinInfoT env query).2) := by
  constructor
  · intro st m
    exact ⟨rfl, rfl⟩
  · intro env query st m hr h2
    have hft : stage1FallsThrough (env.fetchCoin query) := by
      left
      rw [hr]
      exact ⟨h2, by simp [isValidRecord, stage1Body, synthParseErrorBody, truthy]⟩
    obtain ⟨rest, hrest⟩ := searchAndResolve_trace env query
    unfold getCoinInfoT
    rw [resolveSteps_fallsThrough env query hft, hrest]
    simp

/-- Claim C7 witness: a 200 response with an unparseable body is
replaced by the synthesized soft error and triggers the search call. -/
theorem stage1_parse_guard_synthesizes_soft_error_witness :
    stage1Body ⟨200, Parsed.failed "Unexpected token < in JSON"⟩ = synthParseErrorBody 200 ∧
    Call.search "pepe" ∈ (getCoinInfoT envUnparseable "pepe").2 :=
  ⟨(stage1_parse_guard_synthesizes_soft_error.1 200 "Unexpected token < in JSON").1,
   stage1_parse_guard_synthesizes_soft_error.2 envUnparseable "pepe" 200
     "Unexpected token < in JSON" rfl rfl⟩

/-- Claim C8: on a 2xx parseable search response, `search_coingecko_id`
returns the object built from the fields `id`, `symbol`, `name`,
`web_slug`, `platforms` read off the top level of the raw search
response — whatever the `coins` candidate list contains. -/
theorem search_tool_projects_top_level_fields
    (env : Env) (query : String) (st : Nat) (txt : String) (sb : SearchBody)
    (hs : env.search query = ⟨st, txt, Parsed.ok sb⟩) (hst : is2xx st = true) :
    searchCoingeckoId env query =
      ToolOut.success { id := sb.id, symbol := sb.symbol, name := sb.name,
                        web_slug := sb.web_slug, platforms := sb.platforms } := by
  unfold searchCoingeckoId
  rw [hs]
  simp [hst]

/-- Claim C8 witness: a realistic search response (candidates present,
no coin-detail fields at top level) yields the all-absent projection,
not the first candidate's fields. -/
theorem search_tool_projects_top_level_fields_witness :
    searchCoingeckoId envResolveViaSearch "usdc" =
      ToolOut.success { id := none, symbol := none, name := none,
                        web_slug := none, platforms := none } :=
  search_tool_projects_top_level_fields envResolveViaSearch "usdc" 200 ""
    searchBodyUSDC rfl rfl

/-- Claim C9: `get_coin_data_by_coingecko_id` succeeds exactly when the
upstream answers 2xx with a parseable body, and then returns that body
verbatim — with no soft-error detection, so an error-carrying 2xx body
is still a success. -/
theorem coin_data_tool_returns_body_verbatim (env : Env) (id : String) :
    ((∃ b, getCoinDataByCoingeckoId env id = ToolOut.success b) ↔
      (is2xx (env.fetchCoin id).status = true ∧
       ∃ b, (env.fetchCoin id).body = Parsed.ok b)) ∧
    (∀ b, (env.fetchCoin id).body = Parsed.ok b →
      is2xx (env.fetchCoin id).status = true →
      getCoinDataByCoingeckoId env id = ToolOut.success b) := by
  have hmain : ∀ b, (env.fetchCoin id).body = Parsed.ok b →
      is2xx (env.fetchCoin id).status = true →
      getCoinDataByCoingeckoId env id = ToolOut.success b := by
    intro b hb h2
    unfold getCoinDataByCoingeckoId
    rw [hb, h2]
    simp
  refine ⟨⟨?_, ?_⟩, hmain⟩
  · rintro ⟨b, hb⟩
    unfold getCoinDataByCoingeckoId at hb
    by_cases h2 : is2xx (env.fetchCoin id).status = false
    · rw [if_pos h2] at hb
      exact absurd hb (by simp)
    · have h2t : is2xx (env.fetchCoin id).status = true := by
        cases hx : is2xx (env.fetchCoin id).status
        · exact absurd hx h2
        · rfl
      refine ⟨h2t, ?_⟩
      rw [if_neg h2] at hb
      rcases hbody : (env.fetchCoin id).body with v | m
      · exact ⟨v, rfl⟩
      · rw [hbody] at hb
        exact absurd hb (by simp)
  · rintro ⟨h2, b, hb⟩
    exact ⟨b, hmain b hb h2⟩

/-- Claim C9 witness: a 2xx `coin not found` soft-error body is passed
through as a success, error field and all. -/
theorem coin_data_tool_returns_body_verbatim_witness :
    getCoinDataByCoingeckoId envSoftError "usd-coin" = ToolOut.success bodyNotFound :=
  (coin_data_tool_returns_body_verbatim envSoftError "usd-coin").2 bodyNotFound rfl rfl

/-- Claim C10: id-presence checks are string truthiness checks. A first
search candidate whose id is the empty string makes `get_coin_info` fail
with the internal could-not-extract message and issue no stage-3 fetch;
a 2xx stage-1 body whose id is the empty string is not accepted and
triggers the search fallback. -/
theorem empty_string_id_is_falsy :
    (∀ (env : Env) (query : String) (sst : Nat) (txt : String) (sb : SearchBody)
        (c : SearchCoin) (rest : List SearchCoin),
      stage1FallsThrough (env.fetchCoin query) →
      env.search query = ⟨sst, txt, Parsed.ok sb⟩ →
      is2xx sst = true →
      sb.coins = some (c :: rest) →
      c.id = some "" →
      getCoinInfoT env query =
        (CallResult.errorResult
          ("Error processing coin query '" ++ query ++ "': " ++ extractIdErrorMsg),
         [Call.fetchCoin query, Call.search query])) ∧
    (∀ (env : Env) (query : String) (st : Nat) (b : CoinBody),
      env.fetchCoin query = ⟨st, Parsed.ok b⟩ →
      is2xx st = true →
      b.id = some "" →
      Call.search query ∈ (getCoinInfoT env query).2) := by
  constructor
  · intro env query sst txt sb c rest hft hs hsst hcoins hcid
    unfold getCoinInfoT
    rw [resolveSteps_fallsThrough env query hft]
    unfold searchAndResolve
    rw [hs]
    simp [hsst, hcoins, hcid, finishResult]
  · intro env query st b hr h2 hid
    have hft : stage1FallsThrough (env.fetchCoin query) := by
      left
      rw [hr]
      refine ⟨h2, ?_⟩
      simp [isValidRecord, stage1Body, hid, truthy]
    obtain ⟨rest, hrest⟩ := searchAndResolve_trace env query
    unfold getCoinInfoT
    rw [resolveSteps_fallsThrough env query hft, hrest]
    simp

/-- Claim C10 witness: an empty-string candidate id fails without a
stage-3 fetch, and an empty-string stage-1 id falls back to search. -/
theorem empty_string_id_is_falsy_witness :
    getCoinInfoT envEmptyIdCandidate "ghost" =
      (CallResult.errorResult
        ("Error processing coin query '" ++ "ghost" ++ "': " ++ extractIdErrorMsg),
       [Call.fetchCoin "ghost", Call.search "ghost"]) ∧
    Call.search "blank" ∈ (getCoinInfoT envEmptyIdBody "blank").2 :=
  ⟨empty_string_id_is_falsy.1 envEmptyIdCandidate "ghost" 200 "" searchBodyEmptyId
     searchHitEmptyId [] (Or.inr rfl) rfl rfl rfl rfl,
   empty_string_id_is_falsy.2 envEmptyIdBody "blank" 200 bodyEmptyId rfl rfl rfl⟩

end Coingecko
